import Mathlib

/-!
# Limiting Factor — shallow embedding and verification

A shallow embedding of the request-body extraction, response mapping and
configuration code of the nasqueron/limiting-factor repository, with theorems
checking the natural-language specification against it.

Modelling conventions:
* Byte sequences are `List Nat` with each element a byte value (< 256).
* HTTP status codes are their numeric value (`Nat`): 400, 404, 409, 413, 500.
* The process environment is a partial map `String → Option String`
  (`env::var` succeeding exactly when the map returns `some`).
* A fallible byte source (the framework body read) is an
  `Except String (List Nat)`: `.error e` is an I/O failure carrying its
  diagnostic string, `.ok bytes` the fully read bytes.
* Warn-level logging is made explicit: functions that log return the list of
  messages logged at warn level alongside their result.
-/

/-  -------------------------------------------------------------
    core/src/api/guards.rs (identical value type in src/api/guards.rs)
    -------------------------------------------------------------  -/

/-- Embedding of `REQUEST_BODY_LIMIT` from core/src/api/guards.rs (also the value of the
`u64` constant of the same name in src/api/guards.rs). -/
def REQUEST_BODY_LIMIT : Nat := 1000000

/-- Embedding of `RequestBody` from core/src/api/guards.rs: a String representation of the
request body. -/
structure RequestBody where
  content : String
deriving Repr, DecidableEq

/-- Embedding of `RequestBody::new` -/
def RequestBody.new : RequestBody := { content := "" }

/-- Embedding of `RequestBody::into_string` -/
def RequestBody.into_string (self : RequestBody) : String := self.content

/-- Embedding of `RequestBody::into_optional_string`: the content, or `none` if it is
empty. -/
def RequestBody.into_optional_string (self : RequestBody) : Option String :=
  if self.content.isEmpty then
    none
  else
    some self.content

/-  -------------------------------------------------------------
    UTF-8 validation/decoding, modelling Rust String::from_utf8 and
    Read::read_to_string (both enforce standard UTF-8 well-formedness:
    no continuation-byte issues, no overlong forms, no surrogates,
    nothing above U+10FFFF).
    -------------------------------------------------------------  -/

/-- A UTF-8 continuation byte: 0x80–0xBF. -/
def isCont (b : Nat) : Bool := 0x80 ≤ b && b ≤ 0xBF

/-- Expected byte length of a UTF-8 sequence given its lead byte (Rust's
`utf8_char_width` table): `none` on an invalid lead byte (a stray
continuation byte 0x80–0xBF, the overlong leads 0xC0/0xC1, or 0xF5–0xFF). -/
def utf8CharWidth (b1 : Nat) : Option Nat :=
  if b1 ≤ 0x7F then some 1
  else if 0xC2 ≤ b1 && b1 ≤ 0xDF then some 2
  else if 0xE0 ≤ b1 && b1 ≤ 0xEF then some 3
  else if 0xF0 ≤ b1 && b1 ≤ 0xF4 then some 4
  else none

/-- Validity of the continuation bytes of a sequence with lead byte `b1`:
the first continuation byte has a narrowed range for the leads 0xE0
(A0–BF, no overlong), 0xED (80–9F, no surrogates), 0xF0 (90–BF, no
overlong) and 0xF4 (80–8F, nothing above U+10FFFF); every other
continuation byte is 0x80–0xBF. This is the standard acceptance table
Rust's std uses. -/
def utf8ContOk (b1 : Nat) (cont : List Nat) : Bool :=
  match cont with
  | [] => true
  | b2 :: more =>
    (if b1 = 0xE0 then 0xA0 ≤ b2 && b2 ≤ 0xBF
     else if b1 = 0xED then 0x80 ≤ b2 && b2 ≤ 0x9F
     else if b1 = 0xF0 then 0x90 ≤ b2 && b2 ≤ 0xBF
     else if b1 = 0xF4 then 0x80 ≤ b2 && b2 ≤ 0x8F
     else isCont b2) &&
    more.all isCont

/-- Unicode scalar value of a UTF-8 sequence with lead byte `b1` and
continuation bytes `cont`. -/
def utf8SeqVal (b1 : Nat) (cont : List Nat) : Nat :=
  let lead :=
    if b1 ≤ 0x7F then b1
    else if b1 ≤ 0xDF then b1 - 0xC0
    else if b1 ≤ 0xEF then b1 - 0xE0
    else b1 - 0xF0
  cont.foldl (fun acc b => acc * 64 + (b - 0x80)) lead

/-- UTF-8 decoding worker. `fuel` only drives the recursion: each decoded
character consumes at least one input byte, so any fuel at least the input
length makes the `0, _ :: _` branch unreachable (`utf8DecodeList` passes
the length). -/
def utf8DecodeAux : Nat → List Nat → Option (List Char)
  | _, [] => some []
  | 0, _ :: _ => none
  | fuel + 1, b1 :: rest =>
    match utf8CharWidth b1 with
    | none => none
    | some width =>
      let cont := rest.take (width - 1)
      if cont.length = width - 1 && utf8ContOk b1 cont then
        (utf8DecodeAux fuel (rest.drop (width - 1))).map
          (fun cs => Char.ofNat (utf8SeqVal b1 cont) :: cs)
      else none

/-- Decode a byte list as UTF-8, as Rust `String::from_utf8` does: `some`
(the decoded characters) exactly on well-formed input, `none` otherwise. -/
def utf8DecodeList (l : List Nat) : Option (List Char) :=
  utf8DecodeAux l.length l

/-- Rust `String::from_utf8` on a byte list: the decoded `String`, or `none`
on invalid UTF-8. -/
def utf8Decode (bytes : List Nat) : Option String :=
  (utf8DecodeList bytes).map String.mk

/-  -------------------------------------------------------------
    axum/src/api/guards.rs
    -------------------------------------------------------------  -/

/-- Embedding of `AxumRequestBody` from axum/src/api/guards.rs: new-type wrapper around
the core `RequestBody`. -/
structure AxumRequestBody where
  val : RequestBody
deriving Repr, DecidableEq

/-- Embedding of `RequestBodyError` from axum/src/api/guards.rs. -/
inductive RequestBodyError where
  /-- Body size is greater than REQUEST_BODY_LIMIT (DoS risk) -/
  | TooLarge : RequestBodyError
  /-- Not in UTF-8 encoding -/
  | InvalidEncoding : RequestBodyError
  /-- I/O error -/
  | ReadError (msg : String) : RequestBodyError
deriving Repr, DecidableEq

/-- Embedding of `RequestBodyError::into_response`: the (status code, body message) pair
produced for each failure. `StatusCode::PAYLOAD_TOO_LARGE` is 413,
`BAD_REQUEST` 400, `INTERNAL_SERVER_ERROR` 500. -/
def RequestBodyError.into_response : RequestBodyError → Nat × String
  | .TooLarge => (413, "Request body too large")
  | .InvalidEncoding =>
      (400, "Request body contains invalid characters when trying to decode as UTF-8")
  | .ReadError err => (500, "Failed to read request body: " ++ err)

/-- Embedding of `AxumRequestBody::from_request` from axum/src/api/guards.rs. Input is
the outcome of `body.collect().await` / `collected.to_bytes()`: an I/O
failure or the complete body bytes (the source collects the whole body
before any check). The size check comes first, then UTF-8 decoding. -/
def AxumRequestBody.from_request (collectResult : Except String (List Nat)) :
    Except RequestBodyError AxumRequestBody :=
  match collectResult with
  | .error e => .error (.ReadError e)
  | .ok bytes =>
    if bytes.length > REQUEST_BODY_LIMIT then
      .error .TooLarge
    else
      match utf8Decode bytes with
      | some content => .ok ⟨{ content := content }⟩
      | none => .error .InvalidEncoding

/-- The number of bytes `AxumRequestBody::from_request` holds in memory after
`body.collect().await` and before the size check: `collect` gathers the
entire body, so the buffer is the full body length, however large. -/
def axumCollectedLen (bytes : List Nat) : Nat := bytes.length

/-  -------------------------------------------------------------
    src/api/guards.rs (legacy Rocket version)
    -------------------------------------------------------------  -/

/-- Rocket's `Outcome` for data guards, restricted to the constructors the
source uses (`Success`, `Failure`); the failure carries the numeric HTTP
status and the error value. -/
inductive DataOutcome (T : Type) (E : Type) where
  | success (val : T) : DataOutcome T E
  | failure (status : Nat) (err : E) : DataOutcome T E
deriving Repr, DecidableEq

/-- The diagnostic text of the `InvalidData` I/O error Rust's
`read_to_string` produces on invalid UTF-8 (the source formats it with
`format!("\x7b:?\x7d", e)`; braces elided here). -/
def utf8ReadErrorMessage : String := "stream did not contain valid UTF-8"

/-- Embedding of `RequestBody::from_data` from src/api/guards.rs (legacy Rocket
`FromDataSimple` impl). The source runs
`data.open().take(REQUEST_BODY_LIMIT).read_to_string(&mut content)`:
it reads at most `REQUEST_BODY_LIMIT` bytes (silently truncating a longer
body) and fails with status 500 (`InternalServerError`) when the read
errors, including when the bytes read are not valid UTF-8. Input is the
underlying stream outcome: an I/O failure or the full bytes the client
sent. -/
def RequestBody.from_data (readResult : Except String (List Nat)) :
    DataOutcome RequestBody String :=
  match readResult with
  | .error e => .failure 500 e
  | .ok bytes =>
    match utf8Decode (bytes.take REQUEST_BODY_LIMIT) with
    | some content => .success { content := content }
    | none => .failure 500 utf8ReadErrorMessage

/-- The number of bytes the legacy `from_data` reads from the stream: the
`take` adaptor stops at `REQUEST_BODY_LIMIT`. -/
def rocketBytesRead (bytes : List Nat) : Nat :=
  (bytes.take REQUEST_BODY_LIMIT).length

/-  -------------------------------------------------------------
    core/src/app.rs
    -------------------------------------------------------------  -/

/-- The process environment: `env::var name` succeeds with the value exactly
when the map returns `some`. -/
def Env : Type := String → Option String

/-- Rust's `str::parse::<uN>` for an unsigned integer type whose maximum
value is `maxVal`: an optional leading `+`, then one or more ASCII digits,
value within range; anything else is an error. -/
def rustParseUnsigned (maxVal : Nat) (s : String) : Option Nat :=
  let digits :=
    match s.data with
    | '+' :: rest => rest
    | chars => chars
  if digits.isEmpty then none
  else if digits.all (fun c => c.isDigit) then
    let n := digits.foldl (fun acc c => acc * 10 + (c.toNat - 48)) 0
    if n ≤ maxVal then some n else none
  else none

/-- Embedding of `port.parse::<u16>()` -/
def parseU16 (s : String) : Option Nat := rustParseUnsigned 65535 s

/-- Embedding of `variable.parse::<u32>()` -/
def parseU32 (s : String) : Option Nat := rustParseUnsigned 4294967295 s

/-- Embedding of `ServerConfig` from core/src/app.rs. The port is a `u16`; it is kept as
a `Nat` (every value the code produces fits in 16 bits). -/
structure ServerConfig where
  address : String
  port : Nat
  mount_point : String
deriving Repr, DecidableEq

/-- Embedding of `ServerConfig::default` -/
def ServerConfig.default : ServerConfig :=
  { address := "0.0.0.0", port := 8080, mount_point := "/" }

/-- Embedding of `read_port_from_environment_or` from core/src/app.rs:
`APP_PORT` parsed as u16, with the default on absence or parse failure. -/
def read_port_from_environment_or (env : Env) (default_port : Nat) : Nat :=
  match env "APP_PORT" with
  | some port => (parseU16 port).getD default_port
  | none => default_port

/-- Embedding of `ServerConfig::from_env_or` -/
def ServerConfig.from_env_or (env : Env) (default_config : ServerConfig) :
    ServerConfig :=
  { address := (env "APP_ADDRESS").getD default_config.address
    port := read_port_from_environment_or env default_config.port
    mount_point := (env "APP_MOUNT_POINT").getD default_config.mount_point }

/-- Embedding of `ServerConfig::from_env` -/
def ServerConfig.from_env (env : Env) : ServerConfig :=
  ServerConfig.from_env_or env ServerConfig.default

/-  -------------------------------------------------------------
    axum/src/app.rs
    -------------------------------------------------------------  -/

/-- axum's `Router`, kept abstract: `Router::new()` and `host.nest(path,
inner)` are the only operations the source applies. -/
inductive Router where
  | new : Router
  | nest (host : Router) (path : String) (inner : Router) : Router
deriving Repr, DecidableEq

/-- Embedding of `App` from axum/src/app.rs. -/
structure App where
  config : ServerConfig
  router : Router
deriving Repr, DecidableEq

/-- Embedding of `App::resolve_router`: at mount point "/" the router is used as is;
anywhere else every route is nested under the mount point. -/
def App.resolve_router (self : App) : Router :=
  if self.config.mount_point = "/" then
    self.router
  else
    Router.nest Router.new self.config.mount_point self.router

/-  -------------------------------------------------------------
    src/api/replies.rs (legacy Rocket version)
    -------------------------------------------------------------  -/

/-- Embedding of `rocket_contrib::json::Json` wrapper. -/
structure Json (T : Type) where
  value : T
deriving Repr, DecidableEq

/-- Embedding of `diesel::result::DatabaseErrorKind` (diesel 1.x). -/
inductive DatabaseErrorKind where
  | UniqueViolation : DatabaseErrorKind
  | ForeignKeyViolation : DatabaseErrorKind
  | UnableToSendCommand : DatabaseErrorKind
  | SerializationFailure : DatabaseErrorKind
  | Unknown : DatabaseErrorKind
deriving Repr, DecidableEq

/-- Embedding of `diesel::result::Error`, restricted to the shape the source
distinguishes: `NotFound`, `DatabaseError(kind, info)` with `info` carrying
the value of `info.message()`, and every remaining variant collapsed into
`OtherError` carrying the value of `self.description()` (all the remaining
variants reach only the catch-all arm, which consults nothing else). -/
inductive ResultError where
  | NotFound : ResultError
  | DatabaseError (kind : DatabaseErrorKind) (info : String) : ResultError
  | OtherError (description : String) : ResultError
deriving Repr, DecidableEq

/-- Embedding of `build_internal_server_error_response` from src/api/replies.rs: logs the
message at warn level and returns `Status::InternalServerError` (500).
The result pairs the status with the warn-log entries produced. -/
def build_internal_server_error_response (message : String) : Nat × List String :=
  (500, [message])

/-- Embedding of `build_database_error_response` from src/api/replies.rs: unique
violation 409, foreign-key violation 400, anything else 500 with
`info.message()` logged at warn level. -/
def build_database_error_response (error_kind : DatabaseErrorKind)
    (info : String) : Nat × List String :=
  match error_kind with
  | .UniqueViolation => (409, [])
  | .ForeignKeyViolation => (400, [])
  | _ => build_internal_server_error_response info

/-- Embedding of `FailureResponse::into_failure_response` for `diesel::result::Error`:
500 with `self.description()` logged at warn level. -/
def ResultError.into_failure_response (self : ResultError) : Nat × List String :=
  match self with
  | .NotFound => build_internal_server_error_response "NotFound"
  | .DatabaseError _ info => build_internal_server_error_response info
  | .OtherError description => build_internal_server_error_response description

/-- Embedding of `ApiResponse::into_json_response` for `QueryResult<T>` from
src/api/replies.rs. The result pairs the `Result<Json<T>, Status>` value
with the warn-log entries produced. -/
def QueryResult.into_json_response {T : Type} (self : Except ResultError T) :
    Except Nat (Json T) × List String :=
  match self with
  | .ok item => (.ok { value := item }, [])
  | .error e =>
    match e with
    | .NotFound => (.error 404, [])
    | .DatabaseError kind info =>
      let r := build_database_error_response kind info
      (.error r.1, r.2)
    | .OtherError d =>
      let r := ResultError.into_failure_response (.OtherError d)
      (.error r.1, r.2)

/-  -------------------------------------------------------------
    src/config.rs
    -------------------------------------------------------------  -/

/-- Embedding of `DefaultConfig` from src/config.rs. -/
structure DefaultConfig where
  database_url : String
  entry_point : String
  database_pool_size : Nat
  with_database : Bool
deriving Repr, DecidableEq

/-- Embedding of `DefaultConfig::DEFAULT_DATABASE_POOL_SIZE` -/
def DefaultConfig.DEFAULT_DATABASE_POOL_SIZE : Nat := 4

/-- Embedding of `DefaultConfig::parse_environment` from src/config.rs (after the
`dotenv()` call, whose failure is only warned about, the environment map is
the merged environment). `with_database` is true exactly when
`LF_DISABLE_DATABASE` is unset; a missing `DATABASE_URL` is an error only
when `with_database` holds; `API_ENTRY_POINT` defaults to "/";
`DATABASE_POOL_SIZE` defaults to 4 when absent or unparsable as u32. -/
def DefaultConfig.parse_environment (env : Env) : Except String DefaultConfig :=
  let with_database := (env "LF_DISABLE_DATABASE").isNone
  let urlResult : Except String String :=
    match env "DATABASE_URL" with
    | some url => .ok url
    | none =>
      if with_database then
        .error "environment variable not found"
      else
        .ok ""
  match urlResult with
  | .error e => .error e
  | .ok database_url =>
    let entry_point := (env "API_ENTRY_POINT").getD "/"
    let database_pool_size :=
      match env "DATABASE_POOL_SIZE" with
      | some v => (parseU32 v).getD DefaultConfig.DEFAULT_DATABASE_POOL_SIZE
      | none => DefaultConfig.DEFAULT_DATABASE_POOL_SIZE
    .ok { database_url, entry_point, database_pool_size, with_database }

/-  -------------------------------------------------------------
    Concrete test environments (closed values used in witnesses)
    -------------------------------------------------------------  -/

/-- Environment with only `APP_PORT="notanumber"` (the spec's scenario). -/
def envPortNotANumber : Env :=
  fun k => if k = "APP_PORT" then some "notanumber" else none

/-- Environment with only `APP_PORT="9000"`. -/
def envPort9000 : Env :=
  fun k => if k = "APP_PORT" then some "9000" else none

/-- The empty environment: every variable unset. -/
def envEmpty : Env := fun _ => none

/-- Environment with `LF_DISABLE_DATABASE="1"` and
`DATABASE_URL="postgres:db"`, nothing else. -/
def envDisabledWithUrl : Env :=
  fun k =>
    if k = "LF_DISABLE_DATABASE" then some "1"
    else if k = "DATABASE_URL" then some "postgres:db"
    else none

/-  -------------------------------------------------------------
    Theorems
    -------------------------------------------------------------  -/

/-- Helper: with fuel equal to its length, a run of ASCII `a` bytes
(0x61 = 97) decodes to the same run of the character `a`. -/
theorem utf8DecodeAux_replicate_97 (n : Nat) :
    utf8DecodeAux n (List.replicate n 97) = some (List.replicate n 'a') := by
  induction n with
  | zero => rfl
  | succ n ih =>
    rw [List.replicate_succ, List.replicate_succ]
    simp only [utf8DecodeAux]
    norm_num [utf8CharWidth, utf8ContOk, utf8SeqVal, ih]

/-- Helper: a run of ASCII `a` bytes decodes to the same run of the
character `a`. -/
theorem utf8DecodeList_replicate_97 (n : Nat) :
    utf8DecodeList (List.replicate n 97) = some (List.replicate n 'a') := by
  rw [utf8DecodeList, List.length_replicate]
  exact utf8DecodeAux_replicate_97 n

/-- C1 (amended): for the axum extractor, every body strictly larger than
1,000,000 bytes fails with `TooLarge` regardless of the bytes' UTF-8
validity (the size check precedes UTF-8 validation); the legacy Rocket
`from_data`, however, truncates the read at 1,000,000 bytes and behaves on
an oversized body exactly as on its 1,000,000-byte truncation — it has no
`TooLarge` outcome at all. -/
theorem C1_size_check (bytes : List Nat)
    (h : bytes.length > REQUEST_BODY_LIMIT) :
    AxumRequestBody.from_request (Except.ok bytes) =
      Except.error RequestBodyError.TooLarge ∧
    RequestBody.from_data (Except.ok bytes) =
      RequestBody.from_data (Except.ok (bytes.take REQUEST_BODY_LIMIT)) := by
  constructor
  · simp only [AxumRequestBody.from_request]
    rw [if_pos h]
  · simp only [RequestBody.from_data, List.take_take, min_self]

/-- C1 witness: a concrete 1,000,001-byte body. -/
theorem C1_witness :
    (List.replicate 1000001 97).length > REQUEST_BODY_LIMIT ∧
    AxumRequestBody.from_request (Except.ok (List.replicate 1000001 97)) =
      Except.error RequestBodyError.TooLarge ∧
    RequestBody.from_data (Except.ok (List.replicate 1000001 97)) =
      RequestBody.from_data
        (Except.ok ((List.replicate 1000001 97).take REQUEST_BODY_LIMIT)) := by
  have h : (List.replicate 1000001 97).length > REQUEST_BODY_LIMIT := by
    rw [List.length_replicate]; decide
  exact ⟨h, (C1_size_check _ h).1, (C1_size_check _ h).2⟩

/-- Helper: on a body of `n` ASCII `a` bytes, the legacy `from_data`
succeeds with the content truncated to the limit. -/
theorem from_data_replicate_97 (n : Nat) :
    RequestBody.from_data (Except.ok (List.replicate n 97)) =
      DataOutcome.success
        { content := String.mk (List.replicate (REQUEST_BODY_LIMIT ⊓ n) 'a') } := by
  simp only [RequestBody.from_data, List.take_replicate, utf8Decode,
    utf8DecodeList_replicate_97, Option.map_some']

/-- C1 counterexample: a 1,000,001-byte body of ASCII `a`s is strictly
larger than the limit, yet the legacy Rocket `from_data` (cited by the
claim) succeeds with the truncated 1,000,000-character content instead of
failing with `TooLarge`. -/
theorem C1_counterexample :
    (List.replicate 1000001 97).length > REQUEST_BODY_LIMIT ∧
    RequestBody.from_data (Except.ok (List.replicate 1000001 97)) =
      DataOutcome.success { content := String.mk (List.replicate 1000000 'a') } := by
  constructor
  · rw [List.length_replicate]; decide
  · have h := from_data_replicate_97 1000001
    have hmin : REQUEST_BODY_LIMIT ⊓ 1000001 = 1000000 := by decide
    rw [hmin] at h
    exact h

/-- C2: every body of at most 1,000,000 bytes that is valid UTF-8 extracts
successfully, in the axum extractor and the legacy Rocket guard alike, with
`content` equal to the exact UTF-8 decoding of the input bytes (the
inclusive boundary and the empty body are the instances length = 1,000,000
and bytes = []). -/
theorem C2_extraction_success (bytes : List Nat) (s : String)
    (hdec : utf8Decode bytes = some s)
    (hlen : bytes.length ≤ REQUEST_BODY_LIMIT) :
    AxumRequestBody.from_request (Except.ok bytes) =
      Except.ok ⟨{ content := s }⟩ ∧
    RequestBody.from_data (Except.ok bytes) =
      DataOutcome.success { content := s } := by
  constructor
  · simp only [AxumRequestBody.from_request]
    rw [if_neg (by omega), hdec]
  · simp only [RequestBody.from_data]
    rw [List.take_of_length_le hlen, hdec]

/-- C2 witness: the bytes of "lorem" (and, for the empty-body clause, the
empty byte sequence). -/
theorem C2_witness :
    utf8Decode [108, 111, 114, 101, 109] = some "lorem" ∧
    [108, 111, 114, 101, 109].length ≤ REQUEST_BODY_LIMIT ∧
    AxumRequestBody.from_request (Except.ok [108, 111, 114, 101, 109]) =
      Except.ok ⟨{ content := "lorem" }⟩ ∧
    RequestBody.from_data (Except.ok ([] : List Nat)) =
      DataOutcome.success { content := "" } := by
  refine ⟨by decide, by decide, ?_, ?_⟩
  · exact (C2_extraction_success _ _ (by decide) (by decide)).1
  · exact (C2_extraction_success [] "" (by decide) (by decide)).2

/-- C3 (amended): for the axum extractor, a body within the limit that is
not valid UTF-8 fails with `InvalidEncoding`; the legacy Rocket `from_data`
(cited by the claim) instead fails with a generic 500 Internal Server Error
(it has no `InvalidEncoding` outcome). -/
theorem C3_encoding_failure (bytes : List Nat)
    (hdec : utf8Decode bytes = none)
    (hlen : bytes.length ≤ REQUEST_BODY_LIMIT) :
    AxumRequestBody.from_request (Except.ok bytes) =
      Except.error RequestBodyError.InvalidEncoding ∧
    RequestBody.from_data (Except.ok bytes) =
      DataOutcome.failure 500 utf8ReadErrorMessage := by
  constructor
  · simp only [AxumRequestBody.from_request]
    rw [if_neg (by omega), hdec]
  · simp only [RequestBody.from_data]
    rw [List.take_of_length_le hlen, hdec]

/-- C3 witness: the single invalid byte 0xFF. -/
theorem C3_witness :
    utf8Decode [255] = none ∧
    [255].length ≤ REQUEST_BODY_LIMIT ∧
    AxumRequestBody.from_request (Except.ok [255]) =
      Except.error RequestBodyError.InvalidEncoding ∧
    RequestBody.from_data (Except.ok [255]) =
      DataOutcome.failure 500 utf8ReadErrorMessage := by
  refine ⟨by decide, by decide, ?_, ?_⟩
  · exact (C3_encoding_failure _ (by decide) (by decide)).1
  · exact (C3_encoding_failure _ (by decide) (by decide)).2

/-- C3 counterexample: at the one-byte body 0xFF (well under the limit, not
valid UTF-8), the legacy Rocket `from_data` cited by the claim fails with a
generic 500 Internal Server Error, not with an `InvalidEncoding` failure
kind. -/
theorem C3_counterexample :
    [255].length ≤ REQUEST_BODY_LIMIT ∧
    utf8Decode [255] = none ∧
    RequestBody.from_data (Except.ok [255]) =
      DataOutcome.failure 500 utf8ReadErrorMessage := by
  exact ⟨by decide, by decide, by decide⟩

/-- C4: the axum failure-to-response mapping sends `TooLarge` to 413,
`InvalidEncoding` to 400 and `ReadError` to 500, each with a non-empty
message in the response body. -/
theorem C4_error_response_mapping (e : RequestBodyError) :
    (RequestBodyError.into_response e).1 =
      (match e with
        | .TooLarge => 413
        | .InvalidEncoding => 400
        | .ReadError _ => 500) ∧
    (RequestBodyError.into_response e).2 ≠ "" := by
  cases e with
  | TooLarge => exact ⟨rfl, by decide⟩
  | InvalidEncoding => exact ⟨rfl, by decide⟩
  | ReadError msg =>
    refine ⟨rfl, fun h => ?_⟩
    have hlen := congrArg String.length h
    simp only [RequestBodyError.into_response, String.length_append,
      String.length_empty] at hlen
    have h1 : ("Failed to read request body: ").length = 29 := by decide
    rw [h1] at hlen
    omega

/-- C6: `into_optional_string` returns `none` exactly on empty content, and
otherwise returns the content unchanged. -/
theorem C6_into_optional_string (b : RequestBody) :
    (b.into_optional_string = none ↔ b.content = "") ∧
    (b.content ≠ "" → b.into_optional_string = some b.content) := by
  have hiff := String.isEmpty_iff b.content
  simp only [RequestBody.into_optional_string]
  by_cases h : b.content = ""
  · rw [if_pos (hiff.mpr h)]
    simp [h]
  · rw [if_neg (fun hh => h (hiff.mp hh))]
    simp [h]

/-- C6 witness: the empty body and the body "quux". -/
theorem C6_witness :
    RequestBody.into_optional_string { content := "" } = none ∧
    RequestBody.into_optional_string { content := "quux" } = some "quux" := by
  constructor
  · exact (C6_into_optional_string { content := "" }).1.mpr rfl
  · exact (C6_into_optional_string { content := "quux" }).2 (by decide)

/-- C5: the legacy response mapper sends a successful query result to a
JSON body of the wrapped value, `NotFound` to 404, a unique-constraint
violation to 409, a foreign-key violation to 400, and every other backend
error to 500 with the underlying message as the only warn-level log
entry. -/
theorem C5_query_result_mapping {T : Type} (t : T) (info desc : String)
    (kind : DatabaseErrorKind) :
    QueryResult.into_json_response (Except.ok t) =
      (Except.ok { value := t }, []) ∧
    QueryResult.into_json_response (T := T) (Except.error ResultError.NotFound) =
      (Except.error 404, []) ∧
    QueryResult.into_json_response (T := T)
        (Except.error (ResultError.DatabaseError DatabaseErrorKind.UniqueViolation info)) =
      (Except.error 409, []) ∧
    QueryResult.into_json_response (T := T)
        (Except.error (ResultError.DatabaseError DatabaseErrorKind.ForeignKeyViolation info)) =
      (Except.error 400, []) ∧
    (kind ≠ DatabaseErrorKind.UniqueViolation →
      kind ≠ DatabaseErrorKind.ForeignKeyViolation →
      QueryResult.into_json_response (T := T)
          (Except.error (ResultError.DatabaseError kind info)) =
        (Except.error 500, [info])) ∧
    QueryResult.into_json_response (T := T)
        (Except.error (ResultError.OtherError desc)) =
      (Except.error 500, [desc]) := by
  refine ⟨rfl, rfl, rfl, rfl, ?_, rfl⟩
  intro h1 h2
  cases kind with
  | UniqueViolation => exact absurd rfl h1
  | ForeignKeyViolation => exact absurd rfl h2
  | UnableToSendCommand => rfl
  | SerializationFailure => rfl
  | Unknown => rfl

/-- C5 witness: a database error of a kind that is neither a unique nor a
foreign-key violation. -/
theorem C5_witness :
    DatabaseErrorKind.Unknown ≠ DatabaseErrorKind.UniqueViolation ∧
    DatabaseErrorKind.Unknown ≠ DatabaseErrorKind.ForeignKeyViolation ∧
    QueryResult.into_json_response (T := Nat)
        (Except.error (ResultError.DatabaseError DatabaseErrorKind.Unknown "boom")) =
      (Except.error 500, ["boom"]) := by
  refine ⟨by decide, by decide, ?_⟩
  exact (C5_query_result_mapping (0 : Nat) "boom" "x"
    DatabaseErrorKind.Unknown).2.2.2.2.1 (by decide) (by decide)

/-- C7: server-configuration resolution is a total function (it never
raises a startup error); when `APP_PORT` is absent or does not parse as a
u16 the resolved port is the default 8080, and when it does parse the
resolved port is the parsed value. -/
theorem C7_port_resolution (env : Env) :
    ((env "APP_PORT").bind parseU16 = none →
      (ServerConfig.from_env env).port = 8080) ∧
    (∀ s p, env "APP_PORT" = some s → parseU16 s = some p →
      (ServerConfig.from_env env).port = p) := by
  constructor
  · intro h
    simp only [ServerConfig.from_env, ServerConfig.from_env_or,
      read_port_from_environment_or]
    cases he : env "APP_PORT" with
    | none => rfl
    | some s =>
      rw [he] at h
      simp only [Option.some_bind] at h
      simp [h, ServerConfig.default]
  · intro s p hs hp
    simp only [ServerConfig.from_env, ServerConfig.from_env_or,
      read_port_from_environment_or, hs, hp]
    rfl

/-- C7 witness: the spec's scenario `APP_PORT="notanumber"` resolves to the
default port 8080; `APP_PORT="9000"` resolves to 9000. -/
theorem C7_witness :
    (envPortNotANumber "APP_PORT").bind parseU16 = none ∧
    (ServerConfig.from_env envPortNotANumber).port = 8080 ∧
    envPort9000 "APP_PORT" = some "9000" ∧
    parseU16 "9000" = some 9000 ∧
    (ServerConfig.from_env envPort9000).port = 9000 := by
  refine ⟨by decide, ?_, by decide, by decide, ?_⟩
  · exact (C7_port_resolution envPortNotANumber).1 (by decide)
  · exact (C7_port_resolution envPort9000).2 "9000" 9000 (by decide) (by decide)

/-- C8: with `APP_MOUNT_POINT` unset the resolved mount point is "/"; a
mount point of "/" makes `resolve_router` use the router at the root with
no nesting, and any other mount point nests the whole router under that
path. -/
theorem C8_mount_point (env : Env) (a : App) :
    (env "APP_MOUNT_POINT" = none →
      (ServerConfig.from_env env).mount_point = "/") ∧
    (a.config.mount_point = "/" → a.resolve_router = a.router) ∧
    (a.config.mount_point ≠ "/" →
      a.resolve_router = Router.nest Router.new a.config.mount_point a.router) := by
  refine ⟨fun h => ?_, fun h => ?_, fun h => ?_⟩
  · simp [ServerConfig.from_env, ServerConfig.from_env_or, h, ServerConfig.default]
  · simp [App.resolve_router, h]
  · simp [App.resolve_router, h]

/-- C8 witness: the empty environment, a root-mounted app and an app
mounted at "/api". -/
theorem C8_witness :
    envEmpty "APP_MOUNT_POINT" = none ∧
    (ServerConfig.from_env envEmpty).mount_point = "/" ∧
    App.resolve_router ⟨⟨"0.0.0.0", 8080, "/"⟩, Router.new⟩ = Router.new ∧
    App.resolve_router ⟨⟨"0.0.0.0", 8080, "/api"⟩, Router.new⟩ =
      Router.nest Router.new "/api" Router.new := by
  refine ⟨rfl, ?_, ?_, ?_⟩
  · exact (C8_mount_point envEmpty ⟨⟨"0.0.0.0", 8080, "/"⟩, Router.new⟩).1 rfl
  · exact (C8_mount_point envEmpty ⟨⟨"0.0.0.0", 8080, "/"⟩, Router.new⟩).2.1 rfl
  · exact (C8_mount_point envEmpty ⟨⟨"0.0.0.0", 8080, "/api"⟩, Router.new⟩).2.2
      (by decide)

/-- C9: at the concrete 1,000,002-byte body, the axum extractor's
`body.collect()` holds all 1,000,002 bytes in memory before the size check
— more than the limit + 1 cap the claim asserts — while the legacy Rocket
`take`-based read stops at exactly 1,000,000 bytes (and therefore cannot
distinguish an oversized body from a truncated one). -/
theorem C9_collect_unbounded :
    axumCollectedLen (List.replicate 1000002 97) = 1000002 ∧
    1000002 > REQUEST_BODY_LIMIT + 1 ∧
    rocketBytesRead (List.replicate 1000002 97) = REQUEST_BODY_LIMIT := by
  refine ⟨?_, by decide, ?_⟩
  · show (List.replicate 1000002 97).length = 1000002
    rw [List.length_replicate]
  · show ((List.replicate 1000002 97).take REQUEST_BODY_LIMIT).length =
      REQUEST_BODY_LIMIT
    rw [List.take_replicate, List.length_replicate]
    decide

/-- C10 (amended): `parse_environment` fails exactly when `DATABASE_URL`
and `LF_DISABLE_DATABASE` are both unset; when `LF_DISABLE_DATABASE` is
set it succeeds with `with_database = false` and `database_url` equal to
the value of `DATABASE_URL` when that is set and `""` otherwise; in every
successful outcome the entry point defaults to "/" when its variable is
unset and the pool size defaults to 4 when its variable is absent or
unparsable as a u32. -/
theorem C10_parse_environment (env : Env) :
    ((DefaultConfig.parse_environment env).isOk = false ↔
      (env "DATABASE_URL" = none ∧ env "LF_DISABLE_DATABASE" = none)) ∧
    (env "LF_DISABLE_DATABASE" ≠ none →
      ∃ c, DefaultConfig.parse_environment env = Except.ok c ∧
        c.with_database = false ∧
        c.database_url = (env "DATABASE_URL").getD "") ∧
    (∀ c, DefaultConfig.parse_environment env = Except.ok c →
      (env "API_ENTRY_POINT" = none → c.entry_point = "/") ∧
      ((env "DATABASE_POOL_SIZE").bind parseU32 = none →
        c.database_pool_size = 4)) := by
  refine ⟨?_, ?_, ?_⟩
  · cases hu : env "DATABASE_URL" with
    | some url =>
      cases hl : env "LF_DISABLE_DATABASE" <;>
        simp [DefaultConfig.parse_environment, hu, hl, Except.isOk, Except.toBool]
    | none =>
      cases hl : env "LF_DISABLE_DATABASE" <;>
        simp [DefaultConfig.parse_environment, hu, hl, Except.isOk, Except.toBool]
  · intro h
    cases hl : env "LF_DISABLE_DATABASE" with
    | none => exact absurd hl h
    | some v =>
      cases hu : env "DATABASE_URL" <;>
        simp [DefaultConfig.parse_environment, hu, hl]
  · intro c hc
    have hfields :
        c.entry_point = (env "API_ENTRY_POINT").getD "/" ∧
        c.database_pool_size =
          (match env "DATABASE_POOL_SIZE" with
            | some v => (parseU32 v).getD DefaultConfig.DEFAULT_DATABASE_POOL_SIZE
            | none => DefaultConfig.DEFAULT_DATABASE_POOL_SIZE) := by
      cases hu : env "DATABASE_URL" with
      | some url =>
        rw [DefaultConfig.parse_environment, hu] at hc
        simp only [Except.ok.injEq] at hc
        rw [← hc]
        exact ⟨rfl, rfl⟩
      | none =>
        cases hl : env "LF_DISABLE_DATABASE" with
        | none =>
          rw [DefaultConfig.parse_environment, hu, hl] at hc
          simp at hc
        | some v =>
          rw [DefaultConfig.parse_environment, hu, hl] at hc
          simp only [Option.isNone_some, Bool.false_eq_true, if_false,
            Except.ok.injEq] at hc
          rw [← hc]
          exact ⟨rfl, rfl⟩
    constructor
    · intro he
      rw [hfields.1, he]
      rfl
    · intro hp
      rw [hfields.2]
      cases hps : env "DATABASE_POOL_SIZE" with
      | none => rfl
      | some w =>
        rw [hps] at hp
        simp only [Option.some_bind] at hp
        simp [hp, DefaultConfig.DEFAULT_DATABASE_POOL_SIZE]

/-- C10 witness: the empty environment fails; with `LF_DISABLE_DATABASE`
and `DATABASE_URL` both set, parsing succeeds with the database disabled
and the given URL. -/
theorem C10_witness :
    envEmpty "DATABASE_URL" = none ∧
    envEmpty "LF_DISABLE_DATABASE" = none ∧
    (DefaultConfig.parse_environment envEmpty).isOk = false ∧
    envDisabledWithUrl "LF_DISABLE_DATABASE" ≠ none ∧
    (∃ c, DefaultConfig.parse_environment envDisabledWithUrl = Except.ok c ∧
      c.with_database = false ∧
      c.database_url = (envDisabledWithUrl "DATABASE_URL").getD "") := by
  refine ⟨rfl, rfl, ?_, by decide, ?_⟩
  · exact (C10_parse_environment envEmpty).1.mpr ⟨rfl, rfl⟩
  · exact (C10_parse_environment envDisabledWithUrl).2.1 (by decide)

/-- C10 counterexample: with `LF_DISABLE_DATABASE="1"` and
`DATABASE_URL="postgres:db"` both set, parsing succeeds with
`with_database = false` but `database_url = "postgres:db"`, not the empty
string the claim asserts. -/
theorem C10_counterexample :
    envDisabledWithUrl "LF_DISABLE_DATABASE" = some "1" ∧
    DefaultConfig.parse_environment envDisabledWithUrl =
      Except.ok { database_url := "postgres:db", entry_point := "/",
                  database_pool_size := 4, with_database := false } ∧
    "postgres:db" ≠ "" := by
  exact ⟨rfl, rfl, by decide⟩
